import Mathlib

/-!
Shallow embedding of the package-scanner module of PackInSight
(src/lib/package-scanner.ts): vulnerability aggregation, severity
normalization, the static fallback table, the trust-score engine and the
scan orchestrator.  JavaScript numbers are modelled as exact rationals,
JavaScript Math.round as floor (x + 1/2), millisecond timestamps as
integers, and absent-or-unparseable date strings as Option none (new Date
on such a string yields NaN and the code skips the adjustment).  Network
results are passed in as explicit arguments where the code performs IO.
-/

/-- The three supported package ecosystems. -/
inductive Ecosystem where
  | npm
  | python
  | docker
deriving DecidableEq

/-- PackageInfo from package-scanner.ts. -/
structure PackageInfo where
  name : String
  version : String
  ecosystem : Ecosystem
deriving DecidableEq

/-- Vulnerability from package-scanner.ts.  The severity union type is
modelled as a string, since the normalizers lowercase arbitrary upstream
tags into this field. -/
structure Vulnerability where
  id : String
  severity : String
  title : String
  description : String
  cvss : Option ℚ := none
  cwe : List String := []
  references : List String := []
  fixedIn : Option String := none
deriving DecidableEq

/-- GitHubStats from package-scanner.ts.  lastCommit and createdAt are
date strings in the code; they are modelled as parsed millisecond
timestamps, none standing for an absent or unparseable string. -/
structure GitHubStats where
  stars : ℤ := 0
  forks : ℤ := 0
  watchers : ℤ := 0
  openIssues : ℤ := 0
  contributors : ℤ := 0
  pullRequests : ℤ := 0
  lastCommit : Option ℤ := none
  createdAt : Option ℤ := none
  defaultBranch : String := ""
  language : String := ""
  topics : List String := []
deriving DecidableEq

/-- DownloadStats from package-scanner.ts. -/
structure DownloadStats where
  lastDay : Option ℤ := none
  lastWeek : Option ℤ := none
  lastMonth : Option ℤ := none
  total : Option ℤ := none
deriving DecidableEq

/-- The metadata fields of a package analysis that the trust-score engine
and the scan orchestrator read.  lastPublish is a date string in the code,
modelled as a parsed millisecond timestamp (none when the string is
absent, empty or unparseable). -/
structure Metadata where
  description : Option String := none
  lastPublish : Option ℤ := none
  dependencies : List (String × String) := []
deriving DecidableEq

/-- The trustScoreBreakdown record of PackageAnalysis. -/
structure TrustBreakdown where
  security : ℤ
  maintenance : ℤ
  popularity : ℤ
  dependencies : ℤ
deriving DecidableEq

/-- PackageAnalysis from package-scanner.ts (the fields the claims are
about). -/
structure PackageAnalysis where
  package : PackageInfo
  vulnerabilities : List Vulnerability
  trustScore : ℤ
  trustScoreBreakdown : TrustBreakdown
  metadata : Metadata
  githubStats : Option GitHubStats := none
  downloadStats : Option DownloadStats := none
  aiDescription : Option String := none
deriving DecidableEq

/-- The record returned by calculateTrustScore. -/
structure TrustResult where
  score : ℤ
  breakdown : TrustBreakdown
deriving DecidableEq

/-- JavaScript Math.round: round half toward positive infinity. -/
def jsRound (q : ℚ) : ℤ := ⌊q + 1 / 2⌋

/-- JavaScript truthiness of an optional string (undefined and the empty
string are falsy). -/
def strTruthy : Option String → Bool
  | some s => s != ""
  | none => false

/-- JavaScript truthiness of an optional number (undefined and 0 are
falsy; NaN is not modelled since no code path produces it here). -/
def numTruthy : Option ℚ → Bool
  | some q => q != 0
  | none => false

/-- JavaScript truthiness of an optional integer. -/
def intTruthy : Option ℤ → Bool
  | some n => n != 0
  | none => false

/-- JavaScript string or-default: a || b where a is an optional string. -/
def jsOr (a : Option String) (b : String) : String :=
  if strTruthy a then a.getD "" else b

/-!
Severity normalization of the two advisory source adapters
(fetchGitHubAdvisories and fetchOSVVulnerabilities).  The raw upstream
records keep only the fields the adapters read; optional fields model
absent JSON values.
-/

/-- The fields of one GitHub security-advisory GraphQL node that the
adapter reads. -/
structure GitHubAdvisoryNode where
  ghsaId : String
  summary : String := ""
  details : String := ""
  severity : Option String := none
  cvssScore : Option ℚ := none
  cweIds : List String := []
  referenceUrls : List String := []
  firstPatchedVersion : Option String := none
deriving DecidableEq

/-- The adapter step of fetchGitHubAdvisories: severity is the advisory
severity lowercased, or the string medium when the tag is absent or
lowercases to the empty string (the JavaScript or-default). -/
def githubAdvisoryToVulnerability (n : GitHubAdvisoryNode) : Vulnerability :=
  { id := n.ghsaId
    severity := jsOr (n.severity.map (fun s => s.toLower)) "medium"
    title := n.summary
    description := n.details
    cvss := n.cvssScore
    cwe := n.cweIds
    references := n.referenceUrls
    fixedIn := n.firstPatchedVersion }

/-- The fields of one OSV query result that the adapter reads.
dbSeverity is database_specific.severity; score is severity[0].score. -/
structure OSVRawVuln where
  id : String
  summary : Option String := none
  details : Option String := none
  dbSeverity : Option String := none
  score : Option ℚ := none
  cweIds : List String := []
  referenceUrls : List String := []
  fixedEvent : Option String := none
deriving DecidableEq

/-- The severity normalization of fetchOSVVulnerabilities: start at
medium; a truthy database_specific.severity tag is lowercased and wins;
otherwise a truthy numeric score is bucketed by the 9, 7, 4 thresholds. -/
def osvNormalizeSeverity (dbSeverity : Option String) (score : Option ℚ) : String :=
  if strTruthy dbSeverity then (dbSeverity.getD "").toLower
  else if numTruthy score then
    let s := score.getD 0
    if s ≥ 9 then "critical"
    else if s ≥ 7 then "high"
    else if s ≥ 4 then "medium"
    else "low"
  else "medium"

/-- The adapter step of fetchOSVVulnerabilities. -/
def osvToVulnerability (r : OSVRawVuln) : Vulnerability :=
  { id := r.id
    severity := osvNormalizeSeverity r.dbSeverity r.score
    title := jsOr r.summary "Security vulnerability"
    description := jsOr r.details (jsOr r.summary "No description available")
    cvss := r.score
    cwe := r.cweIds
    references := r.referenceUrls
    fixedIn := r.fixedEvent }

/-!
The static fallback vulnerability table and the merge step of
fetchVulnerabilities.
-/

/-- The lodash entry of FALLBACK_VULNERABILITIES. -/
def lodashFallback : Vulnerability :=
  { id := "CVE-2021-23337"
    severity := "high"
    title := "Command Injection"
    description := "Lodash versions prior to 4.17.21 are vulnerable to Command Injection via template."
    cvss := some 7.2
    cwe := ["CWE-78"]
    references := ["https://nvd.nist.gov/vuln/detail/CVE-2021-23337"]
    fixedIn := some "4.17.21" }

/-- The express entry of FALLBACK_VULNERABILITIES. -/
def expressFallback : Vulnerability :=
  { id := "CVE-2022-24999"
    severity := "medium"
    title := "Open Redirect"
    description := "Express.js vulnerable to open redirect via malformed URLs."
    cvss := some 6.1
    cwe := ["CWE-601"]
    references := ["https://nvd.nist.gov/vuln/detail/CVE-2022-24999"]
    fixedIn := some "4.17.3" }

/-- The django entry of FALLBACK_VULNERABILITIES. -/
def djangoFallback : Vulnerability :=
  { id := "CVE-2023-23969"
    severity := "critical"
    title := "SQL Injection"
    description := "Django 3.2 before 3.2.18 allows SQL injection."
    cvss := some 9.8
    cwe := ["CWE-89"]
    references := ["https://nvd.nist.gov/vuln/detail/CVE-2023-23969"]
    fixedIn := some "3.2.18" }

/-- The requests entry of FALLBACK_VULNERABILITIES. -/
def requestsFallback : Vulnerability :=
  { id := "CVE-2023-32681"
    severity := "medium"
    title := "Unintended Proxy Authentication"
    description := "Requests library can leak Proxy-Authorization headers."
    cvss := some 6.1
    cwe := ["CWE-200"]
    references := ["https://nvd.nist.gov/vuln/detail/CVE-2023-32681"]
    fixedIn := some "2.31.0" }

/-- The nginx entry of FALLBACK_VULNERABILITIES. -/
def nginxFallback : Vulnerability :=
  { id := "CVE-2021-23017"
    severity := "high"
    title := "Off-by-one Buffer Overflow"
    description := "Nginx DNS resolver off-by-one heap write."
    cvss := some 8.1
    cwe := ["CWE-193"]
    references := ["https://nvd.nist.gov/vuln/detail/CVE-2021-23017"]
    fixedIn := some "1.20.1" }

/-- FALLBACK_VULNERABILITIES: the static record keyed by exact package
name; none models an absent key. -/
def FALLBACK_VULNERABILITIES : String → Option (List Vulnerability) :=
  fun name =>
    if name = "lodash" then some [lodashFallback]
    else if name = "express" then some [expressFallback]
    else if name = "django" then some [djangoFallback]
    else if name = "requests" then some [requestsFallback]
    else if name = "nginx" then some [nginxFallback]
    else none

/-- The seen-set loop body of fetchVulnerabilities: walk the combined
source list, appending a vulnerability only when its advisory id has not
been seen before. -/
def dedupInto (seen : List String) : List Vulnerability → List Vulnerability
  | [] => []
  | v :: rest =>
    if v.id ∈ seen then dedupInto seen rest
    else v :: dedupInto (v.id :: seen) rest

/-- The merge step of fetchVulnerabilities: source A (GitHub advisories)
is iterated before source B (OSV) with one shared seen set, which is the
seen-set walk of the concatenation. -/
def mergeVulnerabilities (githubVulns osvVulns : List Vulnerability) : List Vulnerability :=
  dedupInto [] (githubVulns ++ osvVulns)

/-- fetchVulnerabilities with the two live source results passed in as
arguments (the code obtains them over the network): merge with
first-seen-wins dedup, then consult the static fallback table only when
the merged list is empty and the name is a truthy key. -/
def fetchVulnerabilities (githubVulns osvVulns : List Vulnerability)
    (pkg : PackageInfo) : List Vulnerability :=
  let vulnerabilities := mergeVulnerabilities githubVulns osvVulns
  if vulnerabilities.isEmpty ∧ (FALLBACK_VULNERABILITIES pkg.name).isSome then
    (FALLBACK_VULNERABILITIES pkg.name).getD []
  else vulnerabilities

/-!
The trust-score engine.  Each raw sub-score block of calculateTrustScore
is a definition of its own so the claims can speak about it; the ambient
clock Date.now is an explicit millisecond argument.
-/

/-- The security block of calculateTrustScore: start at 40, subtract 15
per critical, 10 per high and 5 per medium vulnerability, floor at 0. -/
def securityRaw (vulnerabilities : List Vulnerability) : ℤ :=
  let criticalCount := (vulnerabilities.filter (fun v => v.severity == "critical")).length
  let highCount := (vulnerabilities.filter (fun v => v.severity == "high")).length
  let mediumCount := (vulnerabilities.filter (fun v => v.severity == "medium")).length
  max 0 (40 - criticalCount * 15 - highCount * 10 - mediumCount * 5)

/-- The maintenance block of calculateTrustScore: start at 25, subtract
by the strictly-greater publish-staleness day thresholds 730, 365, 180,
add 5 when the last repository commit is strictly under 30 days old, and
clamp to the 0 to 25 range.  An absent or unparseable date leaves the
score untouched. -/
def maintenanceRaw (metadata : Metadata) (githubStats : Option GitHubStats)
    (now : ℤ) : ℤ :=
  let afterPublish : ℤ :=
    match metadata.lastPublish with
    | some t =>
      let daysSinceUpdate : ℚ := ((now - t : ℤ) : ℚ) / (1000 * 60 * 60 * 24)
      if daysSinceUpdate > 730 then 25 - 15
      else if daysSinceUpdate > 365 then 25 - 10
      else if daysSinceUpdate > 180 then 25 - 5
      else 25
    | none => 25
  let afterCommit : ℤ :=
    match githubStats with
    | some g =>
      match g.lastCommit with
      | some t =>
        let daysSinceCommit : ℚ := ((now - t : ℤ) : ℚ) / (1000 * 60 * 60 * 24)
        if daysSinceCommit < 30 then afterPublish + 5 else afterPublish
      | none => afterPublish
    | none => afterPublish
  min 25 (max 0 afterCommit)

/-- The popularity block of calculateTrustScore: base 5, plus the highest
met GitHub-star bracket and the highest met monthly-download bracket,
capped at 20.  A zero star or download count is falsy in the code and
skips its bracket block. -/
def popularityRaw (githubStats : Option GitHubStats)
    (downloadStats : Option DownloadStats) : ℤ :=
  let starBonus : ℤ :=
    match githubStats with
    | some g =>
      if g.stars ≠ 0 then
        if g.stars > 10000 then 8
        else if g.stars > 1000 then 6
        else if g.stars > 100 then 4
        else if g.stars > 10 then 2
        else 0
      else 0
    | none => 0
  let downloadBonus : ℤ :=
    match downloadStats with
    | some d =>
      match d.lastMonth with
      | some n =>
        if n ≠ 0 then
          if n > 1000000 then 7
          else if n > 100000 then 5
          else if n > 10000 then 3
          else if n > 1000 then 1
          else 0
        else 0
      | none => 0
    | none => 0
  min 20 (5 + starBonus + downloadBonus)

/-- The dependencies block of calculateTrustScore: bracket the number of
dependency keys. -/
def dependenciesRaw (dependencies : List (String × String)) : ℤ :=
  let depCount := ((dependencies.map Prod.fst).dedup).length
  if depCount > 100 then 5
  else if depCount > 50 then 10
  else if depCount > 20 then 12
  else 15

/-- calculateTrustScore: the four raw sub-scores, the rounded composite
clamped to the 0 to 100 range, and the four independently rounded
percentage breakdown fields. -/
def calculateTrustScore (vulnerabilities : List Vulnerability)
    (metadata : Metadata) (dependencies : List (String × String))
    (githubStats : Option GitHubStats) (downloadStats : Option DownloadStats)
    (now : ℤ) : TrustResult :=
  let securityScore := securityRaw vulnerabilities
  let maintenanceScore := maintenanceRaw metadata githubStats now
  let popularityScore := popularityRaw githubStats downloadStats
  let dependenciesScore := dependenciesRaw dependencies
  let totalScore :=
    jsRound ((securityScore : ℚ) + (maintenanceScore : ℚ)
      + (popularityScore : ℚ) + (dependenciesScore : ℚ))
  { score := min 100 (max 0 totalScore)
    breakdown :=
      { security := jsRound (((securityScore : ℚ) / 40) * 100)
        maintenance := jsRound (((maintenanceScore : ℚ) / 25) * 100)
        popularity := jsRound (((popularityScore : ℚ) / 20) * 100)
        dependencies := jsRound (((dependenciesScore : ℚ) / 15) * 100) } }

/-!
The scan orchestrator.  The body of the try block of scanPackages (all
the per-package fetches, scoring and description generation) is passed in
as an analysis function that either returns the analysis or signals the
unexpected exception that the catch block handles.
-/

/-- The catch-block record of scanPackages: the degraded analysis pushed
for a package whose processing raised. -/
def degradedAnalysis (pkg : PackageInfo) : PackageAnalysis :=
  { package := pkg
    vulnerabilities := []
    trustScore := 0
    trustScoreBreakdown :=
      { security := 0, maintenance := 0, popularity := 0, dependencies := 0 }
    metadata := { description := some "Error during analysis" }
    githubStats := none
    downloadStats := none
    aiDescription := some "Unable to generate description due to analysis error" }

/-- scanPackages: process the input packages in order, pushing the
analysis of each, or the degraded catch-block record when the analysis of
that package raises. -/
def scanPackages (analyze : PackageInfo → Except Unit PackageAnalysis)
    (packages : List PackageInfo) : List PackageAnalysis :=
  packages.map (fun pkg =>
    match analyze pkg with
    | .ok a => a
    | .error _ => degradedAnalysis pkg)

/-!
Helper lemmas: rounding arithmetic and properties of the seen-set walk.
-/

theorem jsRound_intCast (n : ℤ) : jsRound (n : ℚ) = n := by
  unfold jsRound
  rw [Int.floor_int_add]
  norm_num

theorem jsRound_int_add_small (n : ℤ) (e : ℚ) (h1 : -(1 / 2) ≤ e)
    (h2 : e < 1 / 2) : jsRound ((n : ℚ) + e) = n := by
  unfold jsRound
  rw [add_assoc, Int.floor_int_add]
  have h0 : ⌊e + 1 / 2⌋ = 0 := by
    rw [Int.floor_eq_zero_iff, Set.mem_Ico]
    constructor <;> linarith
  rw [h0, add_zero]

theorem dedupInto_mem (l : List Vulnerability) :
    ∀ (seen : List String) (v : Vulnerability),
      v ∈ dedupInto seen l → v ∈ l ∧ v.id ∉ seen := by
  induction l with
  | nil => intro seen v h; simp [dedupInto] at h
  | cons hd tl ih =>
    intro seen v h
    by_cases hmem : hd.id ∈ seen
    · rw [dedupInto, if_pos hmem] at h
      rcases ih seen v h with ⟨h1, h2⟩
      exact ⟨List.mem_cons_of_mem _ h1, h2⟩
    · rw [dedupInto, if_neg hmem] at h
      rcases List.mem_cons.mp h with rfl | h2
      · exact ⟨List.mem_cons_self _ _, hmem⟩
      · rcases ih (hd.id :: seen) v h2 with ⟨h3, h4⟩
        exact ⟨List.mem_cons_of_mem _ h3,
          fun hs => h4 (List.mem_cons_of_mem _ hs)⟩

theorem dedupInto_nodup (l : List Vulnerability) :
    ∀ seen : List String, ((dedupInto seen l).map (fun v => v.id)).Nodup := by
  induction l with
  | nil => intro seen; simp [dedupInto]
  | cons hd tl ih =>
    intro seen
    by_cases hmem : hd.id ∈ seen
    · rw [dedupInto, if_pos hmem]; exact ih seen
    · rw [dedupInto, if_neg hmem]
      rw [List.map_cons, List.nodup_cons]
      refine ⟨?_, ih _⟩
      intro hcontra
      rcases List.mem_map.mp hcontra with ⟨w, hw, hwid⟩
      rcases dedupInto_mem tl _ w hw with ⟨_, hnot⟩
      apply hnot
      rw [hwid]
      exact List.mem_cons_self _ _

theorem dedupInto_find (l : List Vulnerability) :
    ∀ (seen : List String) (v : Vulnerability), v ∈ dedupInto seen l →
      l.find? (fun w => w.id == v.id) = some v := by
  induction l with
  | nil => intro seen v h; simp [dedupInto] at h
  | cons hd tl ih =>
    intro seen v h
    by_cases hmem : hd.id ∈ seen
    · rw [dedupInto, if_pos hmem] at h
      have hne : (hd.id == v.id) = false := by
        rw [beq_eq_false_iff_ne]
        intro he
        exact (dedupInto_mem tl seen v h).2 (he ▸ hmem)
      simp only [List.find?_cons, hne]
      exact ih seen v h
    · rw [dedupInto, if_neg hmem] at h
      rcases List.mem_cons.mp h with rfl | h2
      · simp only [List.find?_cons, beq_self_eq_true]
      · have hne : (hd.id == v.id) = false := by
          rw [beq_eq_false_iff_ne]
          intro he
          exact (dedupInto_mem tl _ v h2).2 (he ▸ List.mem_cons_self _ _)
        simp only [List.find?_cons, hne]
        exact ih _ v h2

theorem dedupInto_covers (l : List Vulnerability) :
    ∀ (seen : List String) (w : Vulnerability), w ∈ l → w.id ∉ seen →
      ∃ v, v ∈ dedupInto seen l ∧ v.id = w.id := by
  induction l with
  | nil => intro seen w h; simp at h
  | cons hd tl ih =>
    intro seen w hw hnot
    by_cases hmem : hd.id ∈ seen
    · rcases List.mem_cons.mp hw with rfl | hw2
      · exact absurd hmem hnot
      · rcases ih seen w hw2 hnot with ⟨v, hv, he⟩
        refine ⟨v, ?_, he⟩
        rw [dedupInto, if_pos hmem]
        exact hv
    · rcases List.mem_cons.mp hw with rfl | hw2
      · refine ⟨w, ?_, rfl⟩
        rw [dedupInto, if_neg hmem]
        exact List.mem_cons_self _ _
      · by_cases hid : w.id = hd.id
        · refine ⟨hd, ?_, hid.symm⟩
          rw [dedupInto, if_neg hmem]
          exact List.mem_cons_self _ _
        · have hnot2 : w.id ∉ hd.id :: seen := by
            intro hs
            rcases List.mem_cons.mp hs with he | hs2
            · exact hid he
            · exact hnot hs2
          rcases ih (hd.id :: seen) w hw2 hnot2 with ⟨v, hv, he⟩
          refine ⟨v, ?_, he⟩
          rw [dedupInto, if_neg hmem]
          exact List.mem_cons_of_mem _ hv

theorem find?_append_of_mem_left {α : Type} (p : α → Bool) (a b : List α)
    (v : α) (hex : ∃ x, x ∈ a ∧ p x = true)
    (h : (a ++ b).find? p = some v) : v ∈ a := by
  induction a with
  | nil =>
    rcases hex with ⟨x, hx, _⟩
    simp at hx
  | cons hd tl ih =>
    by_cases hp : p hd
    · rw [List.cons_append, List.find?_cons_of_pos _ hp] at h
      cases h
      exact List.mem_cons_self _ _
    · rw [List.cons_append, List.find?_cons_of_neg _ hp] at h
      rcases hex with ⟨x, hx, hpx⟩
      rcases List.mem_cons.mp hx with rfl | hx2
      · exact absurd hpx hp
      · exact List.mem_cons_of_mem _ (ih ⟨x, hx2, hpx⟩ h)

theorem breakdown_maintenance_exact (m : ℤ) :
    ((jsRound (((m : ℚ) / 25) * 100) : ℤ) : ℚ) * (1 / 4) = m := by
  have h : ((m : ℚ) / 25) * 100 = ((4 * m : ℤ) : ℚ) := by push_cast; ring
  rw [h, jsRound_intCast]
  push_cast
  ring

theorem breakdown_popularity_exact (p : ℤ) :
    ((jsRound (((p : ℚ) / 20) * 100) : ℤ) : ℚ) * (1 / 5) = p := by
  have h : ((p : ℚ) / 20) * 100 = ((5 * p : ℤ) : ℚ) := by push_cast; ring
  rw [h, jsRound_intCast]
  push_cast
  ring

theorem breakdown_security_error (s : ℤ) :
    ∃ e : ℚ, ((jsRound (((s : ℚ) / 40) * 100) : ℤ) : ℚ) * (2 / 5) = (s : ℚ) + e
      ∧ 0 ≤ e ∧ e ≤ 1 / 5 := by
  rcases Int.even_or_odd s with ⟨k, hk⟩ | ⟨k, hk⟩
  · refine ⟨0, ?_, le_refl _, by norm_num⟩
    have h : ((s : ℚ) / 40) * 100 = ((5 * k : ℤ) : ℚ) := by
      subst hk; push_cast; ring
    rw [h, jsRound_intCast]
    subst hk
    push_cast
    ring
  · refine ⟨1 / 5, ?_, by norm_num, le_refl _⟩
    have h : jsRound (((s : ℚ) / 40) * 100) = 5 * k + 3 := by
      unfold jsRound
      have h2 : ((s : ℚ) / 40) * 100 + 1 / 2 = ((5 * k + 3 : ℤ) : ℚ) := by
        subst hk; push_cast; ring
      rw [h2, Int.floor_intCast]
    rw [h]
    subst hk
    push_cast
    ring

theorem breakdown_dependencies_error (d : ℤ)
    (hd : d = 5 ∨ d = 10 ∨ d = 12 ∨ d = 15) :
    ∃ e : ℚ, ((jsRound (((d : ℚ) / 15) * 100) : ℤ) : ℚ) * (3 / 20) = (d : ℚ) + e
      ∧ -(1 / 20) ≤ e ∧ e ≤ 1 / 20 := by
  rcases hd with rfl | rfl | rfl | rfl
  · refine ⟨-(1 / 20), ?_, le_refl _, by norm_num⟩
    have h : jsRound (((5 : ℤ) : ℚ) / 15 * 100) = 33 := by
      unfold jsRound; norm_num
    rw [h]
    norm_num
  · refine ⟨1 / 20, ?_, by norm_num, le_refl _⟩
    have h : jsRound (((10 : ℤ) : ℚ) / 15 * 100) = 67 := by
      unfold jsRound; norm_num
    rw [h]
    norm_num
  · refine ⟨0, ?_, by norm_num, by norm_num⟩
    have h : ((12 : ℤ) : ℚ) / 15 * 100 = ((80 : ℤ) : ℚ) := by norm_num
    rw [h, jsRound_intCast]
    norm_num
  · refine ⟨0, ?_, by norm_num, by norm_num⟩
    have h : ((15 : ℤ) : ℚ) / 15 * 100 = ((100 : ℤ) : ℚ) := by norm_num
    rw [h, jsRound_intCast]
    norm_num

theorem dependenciesRaw_cases (dependencies : List (String × String)) :
    dependenciesRaw dependencies = 5 ∨ dependenciesRaw dependencies = 10
      ∨ dependenciesRaw dependencies = 12 ∨ dependenciesRaw dependencies = 15 := by
  unfold dependenciesRaw
  dsimp only
  split_ifs <;> simp

theorem breakdown_weighted_sum (s m p d : ℤ)
    (hd : d = 5 ∨ d = 10 ∨ d = 12 ∨ d = 15) :
    jsRound (((jsRound (((s : ℚ) / 40) * 100) : ℤ) : ℚ) * (2 / 5)
        + ((jsRound (((m : ℚ) / 25) * 100) : ℤ) : ℚ) * (1 / 4)
        + ((jsRound (((p : ℚ) / 20) * 100) : ℤ) : ℚ) * (1 / 5)
        + ((jsRound (((d : ℚ) / 15) * 100) : ℤ) : ℚ) * (3 / 20))
      = s + m + p + d := by
  rcases breakdown_security_error s with ⟨e1, he1, he1l, he1u⟩
  rcases breakdown_dependencies_error d hd with ⟨e2, he2, he2l, he2u⟩
  rw [he1, breakdown_maintenance_exact, breakdown_popularity_exact, he2]
  have harr : (s : ℚ) + e1 + (m : ℚ) + (p : ℚ) + ((d : ℚ) + e2)
      = ((s + m + p + d : ℤ) : ℚ) + (e1 + e2) := by push_cast; ring
  rw [harr]
  exact jsRound_int_add_small _ _ (by linarith) (by linarith)

/-!
Claim theorems.
-/

/-- Claim C1: scanPackages returns one analysis per input package, in
input order, and never throws: a package whose analysis raises an
unexpected exception contributes the degraded catch-block record (trust
score 0, zeroed breakdown, empty vulnerability list, error-marker
description) while every other package is processed unchanged. -/
theorem scanPackages_order_and_degradation
    (analyze : PackageInfo → Except Unit PackageAnalysis)
    (packages : List PackageInfo) :
    (scanPackages analyze packages).length = packages.length
    ∧ (∀ i : ℕ, (scanPackages analyze packages)[i]? =
        (packages[i]?).map (fun pkg =>
          match analyze pkg with
          | .ok a => a
          | .error _ => degradedAnalysis pkg))
    ∧ (∀ pkg : PackageInfo, (degradedAnalysis pkg).package = pkg
        ∧ (degradedAnalysis pkg).trustScore = 0
        ∧ (degradedAnalysis pkg).trustScoreBreakdown
            = { security := 0, maintenance := 0, popularity := 0, dependencies := 0 }
        ∧ (degradedAnalysis pkg).vulnerabilities = []
        ∧ (degradedAnalysis pkg).metadata.description
            = some "Error during analysis") := by
  refine ⟨by simp [scanPackages], ?_, ?_⟩
  · intro i
    simp [scanPackages]
  · intro pkg
    exact ⟨rfl, rfl, rfl, rfl, rfl⟩

/-- Claim C6: the merge step iterates source A (GitHub advisories) before
source B (OSV) with one shared seen set: every advisory id occurs at most
once in the merged output, each merged entry is the first occurrence of
its id in A followed by B (so source A wins a collision), and the set of
merged ids is the union of both sources regardless of which source a
duplicate came from. -/
theorem mergeVulnerabilities_first_seen_wins (a b : List Vulnerability) :
    ((mergeVulnerabilities a b).map (fun v => v.id)).Nodup
    ∧ (∀ v, v ∈ mergeVulnerabilities a b →
        (a ++ b).find? (fun w => w.id == v.id) = some v)
    ∧ (∀ v, v ∈ mergeVulnerabilities a b →
        (∃ x, x ∈ a ∧ x.id = v.id) → v ∈ a)
    ∧ (∀ i : String, (∃ v, v ∈ mergeVulnerabilities a b ∧ v.id = i)
        ↔ ∃ w, w ∈ a ++ b ∧ w.id = i) := by
  refine ⟨dedupInto_nodup _ [], fun v hv => dedupInto_find _ [] v hv, ?_, ?_⟩
  · intro v hv hex
    rcases hex with ⟨x, hx, hid⟩
    exact find?_append_of_mem_left _ a b v ⟨x, hx, by simp [hid]⟩
      (dedupInto_find _ [] v hv)
  · intro i
    constructor
    · rintro ⟨v, hv, rfl⟩
      exact ⟨v, List.mem_append.mpr (Or.imp id id
        (List.mem_append.mp (dedupInto_mem _ [] v hv).1)), rfl⟩
    · rintro ⟨w, hw, rfl⟩
      exact dedupInto_covers _ [] w hw (by simp)

/-- A source-A record used to exercise the merge tie-break. -/
def cveFromA : Vulnerability :=
  { id := "GHSA-xxxx", severity := "high", title := "From A"
    description := "source A record" }

/-- A source-B record with the same advisory id as cveFromA. -/
def cveFromB : Vulnerability :=
  { id := "GHSA-xxxx", severity := "low", title := "From B"
    description := "source B record" }

/-- Witness for C6 at a concrete collision. -/
theorem mergeVulnerabilities_first_seen_wins_witness :
    (∃ v, v ∈ mergeVulnerabilities [cveFromA] [cveFromB] ∧ v.id = "GHSA-xxxx")
    ∧ cveFromA ∈ [cveFromA] := by
  constructor
  · exact ((mergeVulnerabilities_first_seen_wins [cveFromA] [cveFromB]).2.2.2
      "GHSA-xxxx").mpr ⟨cveFromA, by decide, rfl⟩
  · exact (mergeVulnerabilities_first_seen_wins [cveFromA] [cveFromB]).2.2.1
      cveFromA (by decide) ⟨cveFromA, by decide, rfl⟩

/-- Claim C7: when the merged live results are empty, fetchVulnerabilities
returns exactly the static fallback entries for the package name when the
table has that key and the empty list (never null) otherwise; a non-empty
merge is returned as is and the fallback table is not consulted. -/
theorem fetchVulnerabilities_fallback (githubVulns osvVulns : List Vulnerability)
    (pkg : PackageInfo) :
    (mergeVulnerabilities githubVulns osvVulns = [] →
      fetchVulnerabilities githubVulns osvVulns pkg =
        match FALLBACK_VULNERABILITIES pkg.name with
        | some entries => entries
        | none => [])
    ∧ (mergeVulnerabilities githubVulns osvVulns ≠ [] →
      fetchVulnerabilities githubVulns osvVulns pkg
        = mergeVulnerabilities githubVulns osvVulns) := by
  constructor
  · intro h
    unfold fetchVulnerabilities
    rw [h]
    cases hf : FALLBACK_VULNERABILITIES pkg.name with
    | some entries => simp [hf]
    | none => simp [hf]
  · intro h
    unfold fetchVulnerabilities
    have hne : (mergeVulnerabilities githubVulns osvVulns).isEmpty = false := by
      cases hm : mergeVulnerabilities githubVulns osvVulns with
      | nil => exact absurd hm h
      | cons x xs => rfl
    simp [hne]

/-- The lodash package identifier at the advisory fixedIn version. -/
def lodashPackage : PackageInfo :=
  { name := "lodash", version := "4.17.21", ecosystem := Ecosystem.npm }

/-- Witness for C7: both live sources empty for lodash yields exactly the
fallback table row. -/
theorem fetchVulnerabilities_fallback_witness :
    fetchVulnerabilities [] [] lodashPackage = [lodashFallback] :=
  ((fetchVulnerabilities_fallback [] [] lodashPackage).1 rfl).trans rfl

/-- Claim C9: the fallback lookup is keyed solely by the exact package
name: with no live results the answer is identical for any ecosystem and
any version of that name, including versions at or above the advisory
fixedIn version. -/
theorem fallback_ignores_version_and_ecosystem (name v1 v2 : String)
    (e1 e2 : Ecosystem) :
    fetchVulnerabilities [] [] { name := name, version := v1, ecosystem := e1 }
      = fetchVulnerabilities [] [] { name := name, version := v2, ecosystem := e2 }
    ∧ fetchVulnerabilities [] []
        { name := "lodash", version := "4.17.21", ecosystem := Ecosystem.python }
        = [lodashFallback]
    ∧ fetchVulnerabilities [] []
        { name := "nginx", version := "99.0", ecosystem := Ecosystem.docker }
        = [nginxFallback] :=
  ⟨rfl, rfl, rfl⟩

/-- Claim C10: a record with neither an explicit severity tag nor a
numeric score is assigned the severity medium by both source adapters. -/
theorem adapters_default_severity_medium (n : GitHubAdvisoryNode)
    (r : OSVRawVuln) (hn : n.severity = none) (h1 : r.dbSeverity = none)
    (h2 : r.score = none) :
    (githubAdvisoryToVulnerability n).severity = "medium"
    ∧ (osvToVulnerability r).severity = "medium" := by
  constructor
  · simp [githubAdvisoryToVulnerability, hn, jsOr, strTruthy]
  · simp [osvToVulnerability, osvNormalizeSeverity, h1, h2, strTruthy, numTruthy]

/-- Witness for C10 at concrete bare records. -/
theorem adapters_default_severity_medium_witness :
    (githubAdvisoryToVulnerability { ghsaId := "GHSA-0000-0000-0000" }).severity
        = "medium"
    ∧ (osvToVulnerability { id := "OSV-2020-0001" }).severity = "medium" :=
  adapters_default_severity_medium _ _ rfl rfl rfl

/-- Claim C5 counterexample: a source-B record with no severity tag and
the numeric score 0 has a present score below 4, yet the code leaves the
severity at medium rather than low, because 0 is falsy; likewise a
present-but-empty severity tag is skipped rather than used. -/
theorem osv_severity_truthiness_counterexample :
    ((0 : ℚ) < 4 ∧ osvNormalizeSeverity none (some 0) = "medium"
      ∧ "medium" ≠ "low")
    ∧ (osvNormalizeSeverity (some "") (some 10) = "critical"
      ∧ "critical" ≠ "") := by
  refine ⟨⟨by norm_num, ?_, by decide⟩, ?_, by decide⟩
  · norm_num [osvNormalizeSeverity, strTruthy, numTruthy]
  · norm_num [osvNormalizeSeverity, strTruthy, numTruthy]

/-- Claim C5 amended: for a source-B (OSV) record the normalized severity
is the explicit severity tag lowercased when the tag is present and
non-empty; otherwise, when a nonzero numeric score s is present, it is
critical when s is at least 9, high when below 9 and at least 7, medium
when below 7 and at least 4, and low when below 4; when the tag is absent
or empty and the score is absent or zero the severity stays medium. -/
theorem osv_severity_normalization (dbSeverity : Option String)
    (score : Option ℚ) :
    (∀ t : String, dbSeverity = some t → t ≠ "" →
      osvNormalizeSeverity dbSeverity score = t.toLower)
    ∧ (strTruthy dbSeverity = false → ∀ s : ℚ, score = some s → s ≠ 0 →
        ((9 ≤ s → osvNormalizeSeverity dbSeverity score = "critical")
          ∧ (7 ≤ s → s < 9 → osvNormalizeSeverity dbSeverity score = "high")
          ∧ (4 ≤ s → s < 7 → osvNormalizeSeverity dbSeverity score = "medium")
          ∧ (s < 4 → osvNormalizeSeverity dbSeverity score = "low")))
    ∧ (strTruthy dbSeverity = false → numTruthy score = false →
        osvNormalizeSeverity dbSeverity score = "medium") := by
  refine ⟨?_, ?_, ?_⟩
  · rintro t rfl ht
    have htr : strTruthy (some t) = true := by simp [strTruthy, ht]
    simp [osvNormalizeSeverity, htr]
  · rintro hfalse s rfl hs
    have hnum : numTruthy (some s) = true := by simp [numTruthy, hs]
    refine ⟨fun h9 => ?_, fun h7 h9 => ?_, fun h4 h7 => ?_, fun h4 => ?_⟩
    · simp [osvNormalizeSeverity, hfalse, hnum, h9]
    · have hn9 : ¬ 9 ≤ s := not_le.mpr h9
      simp [osvNormalizeSeverity, hfalse, hnum, hn9, h7]
    · have hn9 : ¬ 9 ≤ s := not_le.mpr (by linarith)
      have hn7 : ¬ 7 ≤ s := not_le.mpr h7
      simp [osvNormalizeSeverity, hfalse, hnum, hn9, hn7, h4]
    · have hn9 : ¬ 9 ≤ s := not_le.mpr (by linarith)
      have hn7 : ¬ 7 ≤ s := not_le.mpr (by linarith)
      have hn4 : ¬ 4 ≤ s := not_le.mpr h4
      simp [osvNormalizeSeverity, hfalse, hnum, hn9, hn7, hn4]
  · intro hfalse hnum
    simp [osvNormalizeSeverity, hfalse, hnum]

/-- Witness for the amended C5 at a concrete score. -/
theorem osv_severity_normalization_witness :
    osvNormalizeSeverity none (some 9.8) = "critical" :=
  ((osv_severity_normalization none (some 9.8)).2.1 rfl 9.8 rfl
    (by norm_num)).1 (by norm_num)

/-- Claim C2: the four breakdown fields of calculateTrustScore are the
independently rounded percentages of the raw sub-scores, rounding their
0.4, 0.25, 0.20, 0.15 weighted sum reconstructs the raw pre-clamp
composite, and the returned score is that composite clamped to the 0 to
100 range. -/
theorem trustScore_breakdown_reconstructs_composite
    (vulnerabilities : List Vulnerability) (metadata : Metadata)
    (dependencies : List (String × String)) (githubStats : Option GitHubStats)
    (downloadStats : Option DownloadStats) (now : ℤ) :
    (calculateTrustScore vulnerabilities metadata dependencies githubStats
        downloadStats now).breakdown.security
      = jsRound (((securityRaw vulnerabilities : ℚ) / 40) * 100)
    ∧ (calculateTrustScore vulnerabilities metadata dependencies githubStats
        downloadStats now).breakdown.maintenance
      = jsRound (((maintenanceRaw metadata githubStats now : ℚ) / 25) * 100)
    ∧ (calculateTrustScore vulnerabilities metadata dependencies githubStats
        downloadStats now).breakdown.popularity
      = jsRound (((popularityRaw githubStats downloadStats : ℚ) / 20) * 100)
    ∧ (calculateTrustScore vulnerabilities metadata dependencies githubStats
        downloadStats now).breakdown.dependencies
      = jsRound (((dependenciesRaw dependencies : ℚ) / 15) * 100)
    ∧ jsRound ((((calculateTrustScore vulnerabilities metadata dependencies
            githubStats downloadStats now).breakdown.security : ℤ) : ℚ) * (0.4 : ℚ)
          + (((calculateTrustScore vulnerabilities metadata dependencies
            githubStats downloadStats now).breakdown.maintenance : ℤ) : ℚ) * (0.25 : ℚ)
          + (((calculateTrustScore vulnerabilities metadata dependencies
            githubStats downloadStats now).breakdown.popularity : ℤ) : ℚ) * (0.20 : ℚ)
          + (((calculateTrustScore vulnerabilities metadata dependencies
            githubStats downloadStats now).breakdown.dependencies : ℤ) : ℚ) * (0.15 : ℚ))
      = jsRound ((securityRaw vulnerabilities : ℚ)
          + (maintenanceRaw metadata githubStats now : ℚ)
          + (popularityRaw githubStats downloadStats : ℚ)
          + (dependenciesRaw dependencies : ℚ))
    ∧ (calculateTrustScore vulnerabilities metadata dependencies githubStats
        downloadStats now).score
      = min 100 (max 0 (jsRound ((securityRaw vulnerabilities : ℚ)
          + (maintenanceRaw metadata githubStats now : ℚ)
          + (popularityRaw githubStats downloadStats : ℚ)
          + (dependenciesRaw dependencies : ℚ)))) := by
  refine ⟨rfl, rfl, rfl, rfl, ?_, rfl⟩
  have hb1 : (calculateTrustScore vulnerabilities metadata dependencies
      githubStats downloadStats now).breakdown.security
      = jsRound (((securityRaw vulnerabilities : ℚ) / 40) * 100) := rfl
  have hb2 : (calculateTrustScore vulnerabilities metadata dependencies
      githubStats downloadStats now).breakdown.maintenance
      = jsRound (((maintenanceRaw metadata githubStats now : ℚ) / 25) * 100) := rfl
  have hb3 : (calculateTrustScore vulnerabilities metadata dependencies
      githubStats downloadStats now).breakdown.popularity
      = jsRound (((popularityRaw githubStats downloadStats : ℚ) / 20) * 100) := rfl
  have hb4 : (calculateTrustScore vulnerabilities metadata dependencies
      githubStats downloadStats now).breakdown.dependencies
      = jsRound (((dependenciesRaw dependencies : ℚ) / 15) * 100) := rfl
  rw [hb1, hb2, hb3, hb4,
    show (0.4 : ℚ) = 2 / 5 by norm_num, show (0.25 : ℚ) = 1 / 4 by norm_num,
    show (0.20 : ℚ) = 1 / 5 by norm_num, show (0.15 : ℚ) = 3 / 20 by norm_num]
  have hr : (securityRaw vulnerabilities : ℚ)
      + (maintenanceRaw metadata githubStats now : ℚ)
      + (popularityRaw githubStats downloadStats : ℚ)
      + (dependenciesRaw dependencies : ℚ)
      = ((securityRaw vulnerabilities + maintenanceRaw metadata githubStats now
          + popularityRaw githubStats downloadStats
          + dependenciesRaw dependencies : ℤ) : ℚ) := by push_cast; ring
  rw [hr, jsRound_intCast]
  exact breakdown_weighted_sum _ _ _ _ (dependenciesRaw_cases dependencies)

/-- The 1-critical, 2-high vulnerability list of concrete scenario 2. -/
def scenario2Vulnerabilities : List Vulnerability :=
  [{ id := "VULN-1", severity := "critical", title := "c1", description := "c1" },
   { id := "VULN-2", severity := "high", title := "h1", description := "h1" },
   { id := "VULN-3", severity := "high", title := "h2", description := "h2" }]

/-- A dependency record with 60 distinct keys for concrete scenario 2. -/
def scenario2Dependencies : List (String × String) :=
  (List.range 60).map (fun i => (toString i, "1.0.0"))

/-- Claim C8: with exactly 1 critical and 2 high vulnerabilities and a
60-entry dependency record, the raw security sub-score is 40 minus 15
minus 20, that is 5, with breakdown 13, and the raw dependencies
sub-score is 10 (the over-50 bracket) with breakdown 67. -/
theorem trustScore_scenario2 :
    securityRaw scenario2Vulnerabilities = 5
    ∧ dependenciesRaw scenario2Dependencies = 10
    ∧ (calculateTrustScore scenario2Vulnerabilities {} scenario2Dependencies
        none none 0).breakdown.security = 13
    ∧ (calculateTrustScore scenario2Vulnerabilities {} scenario2Dependencies
        none none 0).breakdown.dependencies = 67 := by
  have h1 : securityRaw scenario2Vulnerabilities = 5 := by decide
  have h2 : dependenciesRaw scenario2Dependencies = 10 := by decide
  refine ⟨h1, h2, ?_, ?_⟩
  · have hb : (calculateTrustScore scenario2Vulnerabilities {}
        scenario2Dependencies none none 0).breakdown.security
        = jsRound (((securityRaw scenario2Vulnerabilities : ℚ) / 40) * 100) := rfl
    rw [hb, h1]
    unfold jsRound
    norm_num
  · have hb : (calculateTrustScore scenario2Vulnerabilities {}
        scenario2Dependencies none none 0).breakdown.dependencies
        = jsRound (((dependenciesRaw scenario2Dependencies : ℚ) / 15) * 100) := rfl
    rw [hb, h2]
    unfold jsRound
    norm_num


/-- Metadata whose last publish sits at the epoch, for exercising the
clock dependence of the maintenance sub-score. -/
def staleMetadata : Metadata := { lastPublish := some 0 }

/-- Claim C3 counterexample: two calls of calculateTrustScore with
identical values of all five arguments, differing only in the ambient
Date.now reading (epoch versus 800 days later), return different
results, so the function is not a function of its five arguments
alone. -/
theorem trustScore_clock_counterexample :
    calculateTrustScore [] staleMetadata [] none none 0
      ≠ calculateTrustScore [] staleMetadata [] none none 69120000000 := by
  have e1 : maintenanceRaw staleMetadata none 0 = 25 := by
    unfold maintenanceRaw staleMetadata
    norm_num
  have e2 : maintenanceRaw staleMetadata none 69120000000 = 10 := by
    unfold maintenanceRaw staleMetadata
    norm_num
  intro h
  have h2 := congrArg (fun r => r.breakdown.maintenance) h
  simp only at h2
  have f1 : (calculateTrustScore [] staleMetadata [] none none 0).breakdown.maintenance
      = jsRound (((maintenanceRaw staleMetadata none 0 : ℚ) / 25) * 100) := rfl
  have f2 : (calculateTrustScore [] staleMetadata [] none none
        69120000000).breakdown.maintenance
      = jsRound (((maintenanceRaw staleMetadata none 69120000000 : ℚ) / 25) * 100) := rfl
  rw [f1, f2, e1, e2] at h2
  have g1 : jsRound ((((25 : ℤ) : ℚ) / 25) * 100) = 100 := by
    unfold jsRound; norm_num
  have g2 : jsRound ((((10 : ℤ) : ℚ) / 25) * 100) = 40 := by
    unfold jsRound; norm_num
  rw [g1, g2] at h2
  exact absurd h2 (by norm_num)

/-- Unfolding equation for calculateTrustScore in terms of the four raw
sub-score functions. -/
theorem calculateTrustScore_def (vulnerabilities : List Vulnerability)
    (metadata : Metadata) (dependencies : List (String × String))
    (githubStats : Option GitHubStats) (downloadStats : Option DownloadStats)
    (now : ℤ) :
    calculateTrustScore vulnerabilities metadata dependencies githubStats
        downloadStats now =
      { score := min 100 (max 0 (jsRound ((securityRaw vulnerabilities : ℚ)
          + (maintenanceRaw metadata githubStats now : ℚ)
          + (popularityRaw githubStats downloadStats : ℚ)
          + (dependenciesRaw dependencies : ℚ))))
        breakdown :=
          { security := jsRound (((securityRaw vulnerabilities : ℚ) / 40) * 100)
            maintenance :=
              jsRound (((maintenanceRaw metadata githubStats now : ℚ) / 25) * 100)
            popularity :=
              jsRound (((popularityRaw githubStats downloadStats : ℚ) / 20) * 100)
            dependencies :=
              jsRound (((dependenciesRaw dependencies : ℚ) / 15) * 100) } } := rfl

/-- Claim C3 amended: calculateTrustScore is deterministic given its five
arguments together with the ambient Date.now reading, and the clock
reading influences the result only through the maintenance sub-score:
the security, popularity and dependencies breakdown fields never depend
on it, and equal maintenance sub-scores force equal results. -/
theorem trustScore_deterministic_given_clock
    (vulnerabilities : List Vulnerability) (metadata : Metadata)
    (dependencies : List (String × String)) (githubStats : Option GitHubStats)
    (downloadStats : Option DownloadStats) (now₁ now₂ : ℤ) :
    (calculateTrustScore vulnerabilities metadata dependencies githubStats
        downloadStats now₁).breakdown.security
      = (calculateTrustScore vulnerabilities metadata dependencies githubStats
        downloadStats now₂).breakdown.security
    ∧ (calculateTrustScore vulnerabilities metadata dependencies githubStats
        downloadStats now₁).breakdown.popularity
      = (calculateTrustScore vulnerabilities metadata dependencies githubStats
        downloadStats now₂).breakdown.popularity
    ∧ (calculateTrustScore vulnerabilities metadata dependencies githubStats
        downloadStats now₁).breakdown.dependencies
      = (calculateTrustScore vulnerabilities metadata dependencies githubStats
        downloadStats now₂).breakdown.dependencies
    ∧ (maintenanceRaw metadata githubStats now₁
        = maintenanceRaw metadata githubStats now₂ →
      calculateTrustScore vulnerabilities metadata dependencies githubStats
          downloadStats now₁
        = calculateTrustScore vulnerabilities metadata dependencies githubStats
          downloadStats now₂) := by
  refine ⟨?_, ?_, ?_, fun h => ?_⟩
  · rw [calculateTrustScore_def, calculateTrustScore_def]
  · rw [calculateTrustScore_def, calculateTrustScore_def]
  · rw [calculateTrustScore_def, calculateTrustScore_def]
  · rw [calculateTrustScore_def, calculateTrustScore_def, h]

/-- Witness for the amended C3 at concrete arguments and clock values. -/
theorem trustScore_deterministic_given_clock_witness :
    calculateTrustScore [] {} [] none none 0
      = calculateTrustScore [] {} [] none none 0 :=
  (trustScore_deterministic_given_clock [] {} [] none none 0 0).2.2.2 rfl

/-- Claim C4 counterexample: with the last publish exactly 730 days old
the staleness is at least 730 days, but the strict comparison takes the
365-day branch and subtracts only 10, leaving a raw maintenance score of
15 where the claim prescribes 25 minus 15, that is 10. -/
theorem maintenance_boundary_counterexample :
    ((63072000000 - 0 : ℤ) : ℚ) / 86400000 = 730
    ∧ maintenanceRaw { lastPublish := some 0 } none 63072000000 = 15
    ∧ (15 : ℤ) ≠ 10 := by
  refine ⟨by norm_num, ?_, by norm_num⟩
  unfold maintenanceRaw
  norm_num

/-- Claim C4 amended: the raw maintenance sub-score starts at 25 and
subtracts exactly 15 when the last registry publish lies strictly more
than 730 days before now, else 10 when strictly more than 365 days, else
5 when strictly more than 180 days, only the largest threshold met and
never cumulatively; it adds 5 when the last repository commit lies
strictly less than 30 days before now; the result is clamped to the 0 to
25 range; and an absent or unparseable lastPublish or lastCommit date
causes no adjustment for that signal. -/
theorem maintenanceRaw_characterization (metadata : Metadata)
    (githubStats : Option GitHubStats) (now : ℤ) :
    maintenanceRaw metadata githubStats now =
      min 25 (max 0 (25
        - (match metadata.lastPublish with
           | some t =>
             if ((now - t : ℤ) : ℚ) / 86400000 > 730 then (15 : ℤ)
             else if ((now - t : ℤ) : ℚ) / 86400000 > 365 then 10
             else if ((now - t : ℤ) : ℚ) / 86400000 > 180 then 5
             else 0
           | none => 0)
        + (match githubStats with
           | some g =>
             match g.lastCommit with
             | some t =>
               if ((now - t : ℤ) : ℚ) / 86400000 < 30 then (5 : ℤ) else 0
             | none => 0
           | none => 0))) := by
  unfold maintenanceRaw
  obtain ⟨d, lp, dd⟩ := metadata
  cases lp with
  | none =>
    cases githubStats with
    | none => dsimp only; omega
    | some g =>
      obtain ⟨st, fo, wa, oi, co, pr, lc, ca, db, la, tp⟩ := g
      cases lc with
      | none => dsimp only; omega
      | some tc =>
        dsimp only
        rw [show ((1000 * 60 * 60 * 24 : ℚ)) = 86400000 from by norm_num]
        split_ifs <;> omega
  | some t =>
    cases githubStats with
    | none =>
      dsimp only
      rw [show ((1000 * 60 * 60 * 24 : ℚ)) = 86400000 from by norm_num]
      split_ifs <;> omega
    | some g =>
      obtain ⟨st, fo, wa, oi, co, pr, lc, ca, db, la, tp⟩ := g
      cases lc with
      | none =>
        dsimp only
        rw [show ((1000 * 60 * 60 * 24 : ℚ)) = 86400000 from by norm_num]
        split_ifs <;> omega
      | some tc =>
        dsimp only
        rw [show ((1000 * 60 * 60 * 24 : ℚ)) = 86400000 from by norm_num]
        split_ifs <;> omega
